import Mathlib

/-!
Shallow embedding of the MindMate chat orchestration core
(`app.py` and `emotion_model.py`).

External effects are threaded explicitly:
* the outcome of the pretrained emotion pipeline is an `Except String String`
  (`Except.error` models a raised exception, since `get_emotion` has no
  try/except of its own);
* the OpenAI network interaction of `gpt_reply` is an `Option String`
  (`some s` is the stripped `content` the parsing code would produce, which
  may be empty; `none` covers non-200 status, malformed payload, empty
  content and raised exceptions, all of which the source converts to `None`);
* a Hugging Face response is an `HFData` value describing which of the
  payload shapes handled by `hf_fallback_reply` came back;
* `random.choice` is modelled by an arbitrary index reduced modulo the
  length of the chosen fallback list.

Python's `str.lower` and `str.strip` are modelled by the executable
`lowerStr` and `strip` below (pointwise ASCII lowering and whitespace
trimming on the character list; every keyword the program compares against
is lowercase ASCII).  Strings are carried verbatim from the source.
Prompt construction (`recent_context_text`, system prompts, request
payloads) does not influence control flow or any returned value, so it is
not modelled.
-/

namespace MindMate

/-- Python `str.lower` on the compared texts: pointwise lowering of the
character list. -/
def lowerStr (s : String) : String := String.mk (s.data.map Char.toLower)

/-- Python `str.strip`: drop leading and trailing whitespace. -/
def strip (s : String) : String :=
  String.mk
    (((s.data.dropWhile Char.isWhitespace).reverse.dropWhile
        Char.isWhitespace).reverse)

/-- Tests whether the first character list is an initial segment of the second. -/
def hasPrefixL : List Char → List Char → Bool
  | [], _ => true
  | _ :: _, [] => false
  | n :: ns, h :: hs => n == h && hasPrefixL ns hs

/-- Substring containment on character lists, scanning every start position. -/
def containsSubL (needle : List Char) : List Char → Bool
  | [] => hasPrefixL needle []
  | h :: hs => hasPrefixL needle (h :: hs) || containsSubL needle hs

/-- Python's substring test `needle in hay`. -/
def strContains (hay needle : String) : Bool :=
  containsSubL needle.data hay.data

/-- Python's `any(k in t for k in ks)`. -/
def matchesAny (t : String) (ks : List String) : Bool :=
  ks.any (fun k => strContains t k)

/-- Session stage: `None` (idle) or `"stress"` in the Python dict. -/
inductive Stage
  | idle
  | stress
deriving DecidableEq

/-- The module-level `state` dict of `app.py`. -/
structure AppState where
  stage : Stage
  answers : List String
  offered_stress : Bool
  context : List String
deriving DecidableEq

/-- The JSON body returned by the `/chat` route: `{"reply": ..., "type": ...}`. -/
structure Reply where
  reply : String
  rtype : String
deriving DecidableEq

/-- Initial value of `state` in `app.py` (also what the reset command restores). -/
def initialState : AppState :=
  { stage := Stage.idle, answers := [], offered_stress := false, context := [] }

/-- `STRESS_QUESTIONS` from `app.py`. -/
def STRESS_QUESTIONS : List String :=
  ["Do you often feel overwhelmed or tense? (Often / Sometimes / Rarely)",
   "Do you have trouble relaxing or sleeping? (Often / Sometimes / Rarely)",
   "Do you find it hard to focus on tasks? (Often / Sometimes / Rarely)"]

/-- `RELAXATION_SNIPPET` from `app.py`. -/
def RELAXATION_SNIPPET : String :=
  "Here are quick relaxation tools 🌿:\n• 10-Minute Guided Relaxation (YouTube): https://www.youtube.com/watch?v=inpok4MKVLM\n• Gratitude Journaling Tips (Article): https://positivepsychology.com/gratitude-journal/\n• Positive Thinking Audio (Spotify): https://open.spotify.com/track/6dGnYIeXmHdcikdzNNDMm2\n"

/-- The `"neutral"` bucket of `FALLBACK_RESPONSES`. -/
def NEUTRAL_FALLBACKS : List String :=
  ["I’m here — what’s been on your mind today?",
   "Tell me more; I’m listening."]

/-- `FALLBACK_RESPONSES` from `app.py`, in insertion order. -/
def FALLBACK_RESPONSES : List (String × List String) :=
  [("joy", ["That’s wonderful 😊 What made your day brighter?",
            "Love that energy — what went well?"]),
   ("love", ["That sounds meaningful 💚 What sparked that feeling?",
             "Hold onto that warmth — want to share more?"]),
   ("sadness", ["I’m sorry it feels heavy. What’s weighing on you most?",
                "It’s okay to not be okay — I’m here with you."]),
   ("fear", ["That sounds unsettling. Let’s take one slow breath together.",
             "You’re not alone. What’s the biggest worry right now?"]),
   ("anger", ["It’s valid to feel angry. What triggered it?",
              "Let’s unpack it gently — what might help release it a bit?"]),
   ("surprise", ["Whoa — unexpected! How are you feeling about it now?",
                 "Surprises can throw us off — was it good or tough?"]),
   ("neutral", NEUTRAL_FALLBACKS)]

/-- `add_context` from `app.py` (with its default `keep_last = 8`):
append `"role: text"` and keep only the last 8 entries. -/
def add_context (context : List String) (role text : String) : List String :=
  if (context ++ [role ++ ": " ++ text]).length > 8 then
    (context ++ [role ++ ": " ++ text]).drop
      ((context ++ [role ++ ": " ++ text]).length - 8)
  else context ++ [role ++ ": " ++ text]

/-- `KEYWORDS` from `emotion_model.py`, in dict insertion order. -/
def KEYWORDS : List (String × String) :=
  [("happy", "joy"), ("glad", "joy"), ("excited", "joy"), ("awesome", "joy"),
   ("sad", "sadness"), ("unhappy", "sadness"), ("depressed", "sadness"),
   ("cry", "sadness"), ("low", "sadness"), ("not good", "sadness"),
   ("bad", "sadness"), ("moody", "sadness"),
   ("angry", "anger"), ("mad", "anger"), ("furious", "anger"),
   ("scared", "fear"), ("afraid", "fear"), ("nervous", "fear"),
   ("worried", "fear"), ("anxious", "fear"), ("anxiety", "fear"),
   ("love", "love"), ("like", "love"), ("care", "love"),
   ("shock", "surprise"), ("wow", "surprise"), ("unexpected", "surprise")]

/-- The keyword loop of `get_emotion`: first `KEYWORDS` entry whose key is a
substring of the lowered text. -/
def findKeyword (t : String) : Option String :=
  match KEYWORDS.find? (fun kv => strContains t kv.1) with
  | some kv => some kv.2
  | none => none

/-- `get_emotion` from `emotion_model.py`.  `model` is the outcome of running
the transformers pipeline and taking the best label (`Except.error` models a
raised exception).  The function has no exception handling of its own, so a
pipeline error propagates to the caller. -/
def get_emotion (model : Except String String) (text : String) :
    Except String String :=
  match findKeyword (lowerStr text) with
  | some v => Except.ok v
  | none =>
    match model with
    | Except.ok label => Except.ok (lowerStr label)
    | Except.error e => Except.error e

/-- `crisis_terms` from `gpt_reply` in `app.py`. -/
def crisis_terms : List String :=
  ["suicide", "kill myself", "end my life", "self harm", "cut myself",
   "hurt myself"]

/-- The fixed safety reply built inside `gpt_reply`. -/
def SAFETY_MESSAGE : String :=
  "I’m really glad you told me. Your safety matters. If you’re in immediate danger, please call 112 (India) or reach out to a trusted person nearby 💛."

/-- `gpt_reply` from `app.py`.  `hasKey` is whether `OPENAI_API_KEY` is set;
`gptNet` is the outcome of the network call and payload parsing (see the
module docstring).  Returns `none` on any failure so the caller can fall
back; the crisis check only runs when an API key is configured. -/
def gpt_reply (hasKey : Bool) (gptNet : Option String) (user_text : String) :
    Option String :=
  if !hasKey then none
  else if matchesAny (lowerStr user_text) crisis_terms then some SAFETY_MESSAGE
  else gptNet

/-- Shape of one parsed Hugging Face response, as far as
`hf_fallback_reply` distinguishes them:
a dict with `"generated_text"`, a non-empty list whose first element has
`"generated_text"`, a dict with `"error"` (warm-up), any other payload, or a
raised exception during the request / JSON parsing. -/
inductive HFData
  | dictGen (s : String)
  | listGen (s : String)
  | dictErr (e : String)
  | malformed
  | exn
deriving DecidableEq

/-- The `FALLBACK_RESPONSES.get(emotion, FALLBACK_RESPONSES["neutral"])`
lookup. -/
def fallbackFor (emotion : String) : List String :=
  (List.lookup emotion FALLBACK_RESPONSES).getD NEUTRAL_FALLBACKS

/-- `random.choice` over the chosen fallback bucket, with the random draw
modelled by an arbitrary index taken modulo the bucket size. -/
def fallbackChoice (emotion : String) (choice : Nat) : String :=
  (fallbackFor emotion).getD (choice % (fallbackFor emotion).length) ""

/-- Parsing of the retried Hugging Face response (no further retry):
`generated_text` from a dict or the head of a list, else failure. -/
def hfParse2 (d : HFData) : Option String :=
  match d with
  | HFData.dictGen s => some (strip s)
  | HFData.listGen s => some (strip s)
  | _ => none

/-- `hf_fallback_reply` from `app.py`.  `d1` is the first response, `d2` the
response of the single warm-up retry.  Every failure path ends in
`random.choice` over the emotion-keyed fallback table. -/
def hf_fallback_reply (d1 d2 : HFData) (emotion : String) (choice : Nat) :
    String :=
  match d1 with
  | HFData.dictGen s => strip s
  | HFData.listGen s => strip s
  | HFData.dictErr _ =>
    match hfParse2 d2 with
    | some r => r
    | none => fallbackChoice emotion choice
  | HFData.malformed => fallbackChoice emotion choice
  | HFData.exn => fallbackChoice emotion choice

/-- The provider chain at the end of the `/chat` route:
`reply = gpt_reply(...)`, then `if not reply: reply = hf_fallback_reply(...)`
(Python treats both `None` and the empty string as falsy). -/
def chainReply (hasKey : Bool) (gptNet : Option String) (d1 d2 : HFData)
    (text emotion : String) (choice : Nat) : String :=
  match gpt_reply hasKey gptNet text with
  | some r => if r = "" then hf_fallback_reply d1 d2 emotion choice else r
  | none => hf_fallback_reply d1 d2 emotion choice

/-- The per-answer bucket of `score_stress`. -/
def answerScore (a : String) : Nat :=
  if strContains (lowerStr a) "often" then 3
  else if strContains (lowerStr a) "sometimes" then 2
  else if strContains (lowerStr a) "rarely" then 1
  else 0

/-- `score_stress` from `app.py`: sum the per-answer buckets. -/
def score_stress (answers : List String) : Nat :=
  answers.foldl (fun total a => total + answerScore a) 0

/-- Result record of `stress_recommendation`. -/
structure Recommendation where
  level : String
  advice : String
  actions : List String
deriving DecidableEq

/-- `stress_recommendation` from `app.py`. -/
def stress_recommendation (score : Nat) : Recommendation :=
  if score ≥ 7 then
    { level := "High",
      advice := "Your stress seems high 😟. Try 4-4-6 breathing for 3–5 minutes, step outside for fresh air, and jot down what feels heaviest. If it feels unsafe, please reach someone you trust.",
      actions := ["Do box-breathing (inhale 4s, hold 4s, exhale 6s)",
                  "Short walk or gentle stretch",
                  "Text/call a trusted friend"] }
  else if score ≥ 4 then
    { level := "Moderate",
      advice := "There are signs of stress. Try 10 slow breaths, a 5-minute stretch, and finish one tiny task to regain momentum.",
      actions := ["10 slow breaths",
                  "5-minute stretch",
                  "Write 3 thoughts to let go"] }
  else
    { level := "Low",
      advice := "Nice — stress looks manageable. Keep your good habits: sleep, hydration, and light movement.",
      actions := ["5-minute gratitude note",
                  "Drink water + short walk",
                  "Plan one small enjoyable thing"] }

/-- Reset vocabulary of the `/chat` route. -/
def reset_words : List String := ["restart", "reset", "clear chat", "start over"]

/-- Negative-mood cue vocabulary of the `/chat` route. -/
def negative_cues : List String :=
  ["not good", "sad", "down", "depressed", "anxious", "stressed",
   "overwhelmed", "angry", "tensed", "tired", "worried"]

/-- Affirmative vocabulary used to accept a pending stress-test offer. -/
def affirm_words : List String :=
  ["yes", "sure", "ok", "start", "take test", "yeah", "yup"]

/-- Relaxation-keyword vocabulary of the `/chat` route. -/
def relax_words : List String :=
  ["relax", "calm", "breathe", "meditate", "anger control", "cool down",
   "stress relief"]

/-- The offer message for the stress check. -/
def OFFER_MESSAGE : String :=
  "It sounds tough 😔. Want to take a quick 3-question stress check?"

/-- The reset acknowledgement. -/
def RESET_MESSAGE : String :=
  "Chat cleared 🌱. Hey there! How are you feeling today?"

/-- The reply sent when the inbound message is empty after stripping. -/
def EMPTY_MESSAGE_REPLY : String := "Could you share that again?"

/-- The f-string that formats the final stress result. -/
def stressResultReply (r : Recommendation) : String :=
  "🧘 Stress Level: " ++ r.level ++ "\n" ++ r.advice ++
    "\nSuggested actions:\n• " ++ r.actions.getD 0 "" ++ "\n• " ++
    r.actions.getD 1 "" ++ "\n• " ++ r.actions.getD 2 ""

/-- The reply of a completed assessment, from the answer list. -/
def stressFinalReply (answers : List String) : String :=
  stressResultReply (stress_recommendation (score_stress answers))

/-- `STRESS_QUESTIONS[len(answers)]`: the question emitted after absorbing
an in-progress answer. -/
def nextQuestion (answers : List String) : String :=
  STRESS_QUESTIONS.getD answers.length ""

deriving instance DecidableEq for Except

/-- The external-world inputs one request may consume: whether
`OPENAI_API_KEY` is configured, the emotion pipeline's outcome, the OpenAI
network outcome, the two possible Hugging Face responses, and the random
draw used by `random.choice`. -/
structure Oracles where
  hasKey : Bool
  classifierModel : Except String String
  gptNet : Option String
  hfData1 : HFData
  hfData2 : HFData
  choice : Nat
deriving DecidableEq

/-- Body of the `/chat` route after `text = message.strip()`, routing an
already-stripped text.  An `Except.error` is an uncaught Python exception
escaping the route (only `get_emotion` can raise one). -/
def routeText (o : Oracles) (s : AppState) (text : String) :
    Except String (AppState × Reply) :=
  if text = "" then
    Except.ok (s, { reply := EMPTY_MESSAGE_REPLY, rtype := "chat" })
  else if matchesAny (lowerStr text) reset_words then
    Except.ok (initialState, { reply := RESET_MESSAGE, rtype := "chat" })
  else if s.stage = Stage.stress then
    if (s.answers ++ [text]).length ≥ 3 then
      Except.ok ({ stage := Stage.idle, answers := [], offered_stress := false,
                   context := add_context s.context "MindMate"
                     (stressFinalReply (s.answers ++ [text])) : AppState },
                 { reply := stressFinalReply (s.answers ++ [text]),
                   rtype := "result" })
    else
      Except.ok ({ s with answers := s.answers ++ [text],
                          context := add_context s.context "MindMate"
                            (nextQuestion (s.answers ++ [text])) },
                 { reply := nextQuestion (s.answers ++ [text]),
                   rtype := "stress" })
  else
    match get_emotion o.classifierModel text with
    | Except.error e => Except.error e
    | Except.ok emotion =>
      if matchesAny (lowerStr text) negative_cues then
        Except.ok ({ s with offered_stress := true,
                            context :=
                              add_context (add_context s.context "User" text)
                                "MindMate" OFFER_MESSAGE },
                   { reply := OFFER_MESSAGE, rtype := "offer_test" })
      else if s.offered_stress && matchesAny (lowerStr text) affirm_words then
        Except.ok ({ s with stage := Stage.stress,
                            answers := [],
                            offered_stress := false,
                            context :=
                              add_context (add_context s.context "User" text)
                                "MindMate" (STRESS_QUESTIONS.getD 0 "") },
                   { reply := STRESS_QUESTIONS.getD 0 "", rtype := "stress" })
      else if matchesAny (lowerStr text) relax_words then
        Except.ok ({ s with context :=
                              add_context (add_context s.context "User" text)
                                "MindMate" RELAXATION_SNIPPET },
                   { reply := RELAXATION_SNIPPET, rtype := "resource" })
      else
        Except.ok ({ s with context :=
                              add_context (add_context s.context "User" text)
                                "MindMate"
                                (chainReply o.hasKey o.gptNet o.hfData1
                                  o.hfData2 text emotion o.choice) },
                   { reply := chainReply o.hasKey o.gptNet o.hfData1 o.hfData2
                       text emotion o.choice,
                     rtype := "chat" })

/-- The `/chat` route: strip the form field, then route. -/
def handleMessage (o : Oracles) (s : AppState) (message : String) :
    Except String (AppState × Reply) :=
  routeText o s (strip message)

/-- The string `add_context` pushes for one `(speaker, text)` turn. -/
def ctxEntry (e : String × String) : String := e.1 ++ ": " ++ e.2

/-- A concrete oracle bundle for witnesses: key configured, classifier
healthy, both providers reachable. -/
def oDemo : Oracles :=
  { hasKey := true, classifierModel := Except.ok "neutral",
    gptNet := some "net reply", hfData1 := HFData.dictGen "hf reply",
    hfData2 := HFData.exn, choice := 0 }

/-- A concrete oracle bundle for witnesses: everything misconfigured or
failing. -/
def oDemo2 : Oracles :=
  { hasKey := false, classifierModel := Except.error "classifier crashed",
    gptNet := none, hfData1 := HFData.exn, hfData2 := HFData.exn, choice := 3 }

/-- A concrete mid-assessment session state for witnesses. -/
def sDemo : AppState :=
  { stage := Stage.stress, answers := ["a"], offered_stress := true,
    context := ["x"] }

/- ### Helper lemmas -/

lemma answerScore_le (a : String) : answerScore a ≤ 3 := by
  unfold answerScore
  repeat' split
  all_goals omega

lemma add_context_length_le (ctx : List String) (role text : String) :
    (add_context ctx role text).length ≤ 8 := by
  unfold add_context
  split
  · simp only [List.length_drop]
    omega
  · rename_i h
    omega

lemma foldl_add_context_length_le (es : List (String × String)) :
    ∀ ctx : List String, ctx.length ≤ 8 →
      ((es.foldl (fun c e => add_context c e.1 e.2) ctx).length ≤ 8) := by
  induction es with
  | nil => intro ctx h; simpa using h
  | cons e es ih =>
    intro ctx h
    simp only [List.foldl_cons]
    exact ih _ (add_context_length_le _ _ _)

lemma getD_mod_mem (l : List String) (c : Nat) (h : l ≠ []) :
    l.getD (c % l.length) "" ∈ l := by
  have hlen : 0 < l.length := List.length_pos.mpr h
  have hlt : c % l.length < l.length := Nat.mod_lt _ hlen
  rw [List.getD_eq_getElem l "" hlt]
  exact List.getElem_mem hlt

lemma fallbackFor_ne_nil (e : String) : fallbackFor e ≠ [] := by
  unfold fallbackFor FALLBACK_RESPONSES NEUTRAL_FALLBACKS
  simp only [List.lookup]
  repeat' split
  all_goals decide

lemma get_emotion_ok_eval (l t : String) :
    get_emotion (Except.ok l) t =
      Except.ok ((findKeyword (lowerStr t)).getD (lowerStr l)) := by
  unfold get_emotion
  cases h : findKeyword (lowerStr t) <;> simp

lemma reset_route (o : Oracles) (s : AppState) (m : String)
    (hm : matchesAny (lowerStr (strip m)) reset_words = true) :
    handleMessage o s m =
      Except.ok (initialState, { reply := RESET_MESSAGE, rtype := "chat" }) := by
  have hne : strip m ≠ "" := by
    intro h
    rw [h] at hm
    have hfalse : matchesAny (lowerStr "") reset_words = false := by decide
    rw [hfalse] at hm
    exact Bool.noConfusion hm
  unfold handleMessage routeText
  rw [if_neg hne, if_pos hm]

/- ### Claims -/

/-- C5: `score_stress` buckets each of the three answers by substring match
("often" 3, "sometimes" 2, "rarely" 1, else 0) and sums, so the total is at
most 9; `stress_recommendation` is total with no boundary gaps (≥ 7 High,
4 ≤ score < 7 Moderate, < 4 Low), and within each band it returns one fixed
record with exactly three ordered actions. -/
theorem C5_score_and_recommend :
    (∀ a b c : String,
        score_stress [a, b, c] = answerScore a + answerScore b + answerScore c) ∧
    (∀ a b c : String, score_stress [a, b, c] ≤ 9) ∧
    (∀ n : Nat, 7 ≤ n → (stress_recommendation n).level = "High") ∧
    (∀ n : Nat, 4 ≤ n → n < 7 → (stress_recommendation n).level = "Moderate") ∧
    (∀ n : Nat, n < 4 → (stress_recommendation n).level = "Low") ∧
    (∀ n m : Nat, 7 ≤ n → 7 ≤ m →
        stress_recommendation n = stress_recommendation m) ∧
    (∀ n m : Nat, 4 ≤ n → n < 7 → 4 ≤ m → m < 7 →
        stress_recommendation n = stress_recommendation m) ∧
    (∀ n m : Nat, n < 4 → m < 4 →
        stress_recommendation n = stress_recommendation m) ∧
    (∀ n : Nat, (stress_recommendation n).actions.length = 3) := by
  refine ⟨?_, ?_, ?_, ?_, ?_, ?_, ?_, ?_, ?_⟩
  · intro a b c
    simp [score_stress, List.foldl]
  · intro a b c
    have ha := answerScore_le a
    have hb := answerScore_le b
    have hc := answerScore_le c
    simp only [score_stress, List.foldl]
    omega
  · intro n h
    unfold stress_recommendation
    rw [if_pos h]
  · intro n h1 h2
    unfold stress_recommendation
    rw [if_neg (by omega), if_pos h1]
  · intro n h
    unfold stress_recommendation
    rw [if_neg (by omega), if_neg (by omega)]
  · intro n m h1 h2
    unfold stress_recommendation
    rw [if_pos h1, if_pos h2]
  · intro n m h1 h2 h3 h4
    unfold stress_recommendation
    rw [if_neg (by omega), if_pos h1, if_neg (by omega), if_pos h3]
  · intro n m h1 h2
    unfold stress_recommendation
    rw [if_neg (by omega), if_neg (by omega), if_neg (by omega),
      if_neg (by omega)]
  · intro n
    unfold stress_recommendation
    repeat' split
    all_goals rfl

/-- Witness for C5 at concrete inputs, including the exact boundary scores
4 and 7. -/
theorem C5_witness :
    score_stress ["often!", "sometimes", "never"] =
      answerScore "often!" + answerScore "sometimes" + answerScore "never" ∧
    score_stress ["often", "Often", "OFTEN"] ≤ 9 ∧
    (stress_recommendation 7).level = "High" ∧
    (stress_recommendation 4).level = "Moderate" ∧
    (stress_recommendation 3).level = "Low" ∧
    stress_recommendation 8 = stress_recommendation 9 ∧
    stress_recommendation 4 = stress_recommendation 6 ∧
    stress_recommendation 0 = stress_recommendation 3 ∧
    (stress_recommendation 5).actions.length = 3 :=
  ⟨C5_score_and_recommend.1 "often!" "sometimes" "never",
   C5_score_and_recommend.2.1 "often" "Often" "OFTEN",
   C5_score_and_recommend.2.2.1 7 (by decide),
   C5_score_and_recommend.2.2.2.1 4 (by decide) (by decide),
   C5_score_and_recommend.2.2.2.2.1 3 (by decide),
   C5_score_and_recommend.2.2.2.2.2.1 8 9 (by decide) (by decide),
   C5_score_and_recommend.2.2.2.2.2.2.1 4 6 (by decide) (by decide) (by decide)
     (by decide),
   C5_score_and_recommend.2.2.2.2.2.2.2.1 0 3 (by decide) (by decide),
   C5_score_and_recommend.2.2.2.2.2.2.2.2 5⟩

/-- C6: any message whose stripped, lowered text contains a reset keyword
resets the whole session (stage, answers, offered flag, context) to the
initial defaults and returns the canned acknowledgement, from any prior
state — mid-assessment included — short-circuiting every other rule. -/
theorem C6_reset_clears_everything (o : Oracles) (s : AppState) (m : String)
    (hm : matchesAny (lowerStr (strip m)) reset_words = true) :
    handleMessage o s m =
      Except.ok (initialState, { reply := RESET_MESSAGE, rtype := "chat" }) :=
  reset_route o s m hm

/-- Witness for C6: an uppercase reset command mid-assessment. -/
theorem C6_witness :
    handleMessage oDemo sDemo "Please RESET now" =
      Except.ok (initialState, { reply := RESET_MESSAGE, rtype := "chat" }) :=
  C6_reset_clears_everything oDemo sDemo "Please RESET now" (by decide)

/-- C7: one `add_context` append never leaves more than 8 entries, hence any
sequence of appends from the empty context stays within capacity 8; after 9
appends from empty the window holds exactly the 2nd through 9th entries in
chronological order, so the oldest entry (when its rendered line is distinct
from the others) is gone and the 2nd-oldest is first. -/
theorem C7_context_capacity_fifo :
    (∀ (ctx : List String) (role text : String),
        (add_context ctx role text).length ≤ 8) ∧
    (∀ es : List (String × String),
        (es.foldl (fun c e => add_context c e.1 e.2) []).length ≤ 8) ∧
    (∀ e1 e2 e3 e4 e5 e6 e7 e8 e9 : String × String,
        [e1, e2, e3, e4, e5, e6, e7, e8, e9].foldl
            (fun c e => add_context c e.1 e.2) [] =
          [ctxEntry e2, ctxEntry e3, ctxEntry e4, ctxEntry e5, ctxEntry e6,
           ctxEntry e7, ctxEntry e8, ctxEntry e9]) ∧
    (∀ e1 e2 e3 e4 e5 e6 e7 e8 e9 : String × String,
        ctxEntry e1 ∉ [ctxEntry e2, ctxEntry e3, ctxEntry e4, ctxEntry e5,
          ctxEntry e6, ctxEntry e7, ctxEntry e8, ctxEntry e9] →
        ctxEntry e1 ∉ [e1, e2, e3, e4, e5, e6, e7, e8, e9].foldl
            (fun c e => add_context c e.1 e.2) []) := by
  have h3 : ∀ e1 e2 e3 e4 e5 e6 e7 e8 e9 : String × String,
      [e1, e2, e3, e4, e5, e6, e7, e8, e9].foldl
          (fun c e => add_context c e.1 e.2) [] =
        [ctxEntry e2, ctxEntry e3, ctxEntry e4, ctxEntry e5, ctxEntry e6,
         ctxEntry e7, ctxEntry e8, ctxEntry e9] := by
    intro e1 e2 e3 e4 e5 e6 e7 e8 e9
    simp [add_context, ctxEntry]
  refine ⟨fun ctx r t => add_context_length_le ctx r t,
    fun es => foldl_add_context_length_le es [] (by simp), h3, ?_⟩
  intro e1 e2 e3 e4 e5 e6 e7 e8 e9 h
  rw [h3 e1 e2 e3 e4 e5 e6 e7 e8 e9]
  exact h

/-- Witness for C7: nine concrete distinct turns; the first one's line is
evicted. -/
theorem C7_witness :
    ctxEntry ("User", "m1") ∉
      [("User", "m1"), ("Bot", "m2"), ("User", "m3"), ("Bot", "m4"),
       ("User", "m5"), ("Bot", "m6"), ("User", "m7"), ("Bot", "m8"),
       ("User", "m9")].foldl (fun c e => add_context c e.1 e.2) [] :=
  C7_context_capacity_fifo.2.2.2 ("User", "m1") ("Bot", "m2") ("User", "m3")
    ("Bot", "m4") ("User", "m5") ("Bot", "m6") ("User", "m7") ("Bot", "m8")
    ("User", "m9") (by decide)

/-- C10: a message that is empty after stripping gets the fixed reply
"Could you share that again?" with type chat, leaves the session untouched,
and consults no oracle at all: the result is the same for any two oracle
bundles. -/
theorem C10_blank_message (o o' : Oracles) (s : AppState) (m : String)
    (hm : strip m = "") :
    handleMessage o s m =
      Except.ok (s, { reply := EMPTY_MESSAGE_REPLY, rtype := "chat" }) ∧
    handleMessage o s m = handleMessage o' s m := by
  unfold handleMessage routeText
  rw [hm]
  simp

/-- Witness for C10: a whitespace-only message mid-assessment, compared
across a healthy and a fully failing oracle bundle. -/
theorem C10_witness :
    handleMessage oDemo sDemo "   " =
      Except.ok (sDemo, { reply := EMPTY_MESSAGE_REPLY, rtype := "chat" }) ∧
    handleMessage oDemo sDemo "   " = handleMessage oDemo2 sDemo "   " :=
  C10_blank_message oDemo oDemo2 sDemo "   " (by decide)

/-- C2 counterexample: two provider failures do not behave as claimed.
When both providers fail with the Hugging Face side returning an empty
`generated_text`, the chain hands the empty string to the caller — a reply
that is neither well-formed non-empty nor drawn from the fallback table.
And a Hugging Face error payload triggers a retry of the same provider
whose text is returned, instead of advancing past it to the fallback
table. -/
theorem C2_counterexample :
    chainReply false none (HFData.dictGen "") HFData.exn "hi" "joy" 0 = "" ∧
    "" ∉ fallbackFor "joy" ∧
    chainReply false none (HFData.dictErr "loading") (HFData.dictGen "warm reply")
        "hi" "joy" 0 = "warm reply" ∧
    "warm reply" ∉ fallbackFor "joy" := by
  decide

/-- C2 (amended): a non-empty first-provider reply is returned with the
Hugging Face side never consulted, and a first-provider failure (None or
empty) advances to the Hugging Face provider; but on the Hugging Face side a
parsed `generated_text` is returned as-is even when empty, and an error
payload causes one retry of the same provider whose parsed text is returned
when present.  Only exceptions, malformed payloads and failed retries draw
from the static emotion-keyed fallback table, whose pick always belongs to
the bucket for the detected emotion, defaulting to the neutral bucket for an
unrecognized label; and as long as the classifier itself succeeds, no
provider failure escapes `handleMessage` as an error (though the reply may
be the empty string). -/
theorem C2_amended_provider_chain :
    (∀ (hk : Bool) (g : Option String) (t r : String),
        gpt_reply hk g t = some r → r ≠ "" →
        ∀ (d1 d2 d1' d2' : HFData) (e e' : String) (c c' : Nat),
          chainReply hk g d1 d2 t e c = r ∧
          chainReply hk g d1 d2 t e c = chainReply hk g d1' d2' t e' c') ∧
    (∀ (hk : Bool) (g : Option String) (t : String),
        gpt_reply hk g t = none ∨ gpt_reply hk g t = some "" →
        ∀ (d1 d2 : HFData) (e : String) (c : Nat),
          chainReply hk g d1 d2 t e c = hf_fallback_reply d1 d2 e c) ∧
    (∀ (s : String) (d2 : HFData) (e : String) (c : Nat),
        hf_fallback_reply (HFData.dictGen s) d2 e c = strip s ∧
        hf_fallback_reply (HFData.listGen s) d2 e c = strip s) ∧
    (∀ (msg : String) (d2 : HFData) (e : String) (c : Nat) (r : String),
        hfParse2 d2 = some r →
        hf_fallback_reply (HFData.dictErr msg) d2 e c = r) ∧
    (∀ (d2 : HFData) (msg e : String) (c : Nat),
        hf_fallback_reply HFData.exn d2 e c = fallbackChoice e c ∧
        hf_fallback_reply HFData.malformed d2 e c = fallbackChoice e c ∧
        (hfParse2 d2 = none →
          hf_fallback_reply (HFData.dictErr msg) d2 e c = fallbackChoice e c)) ∧
    (∀ (e : String) (c : Nat), fallbackChoice e c ∈ fallbackFor e) ∧
    (∀ e : String, List.lookup e FALLBACK_RESPONSES = none →
        fallbackFor e = NEUTRAL_FALLBACKS) ∧
    (∀ (o : Oracles) (s : AppState) (m l : String),
        o.classifierModel = Except.ok l → (handleMessage o s m).isOk = true) := by
  refine ⟨?_, ?_, ?_, ?_, ?_, ?_, ?_, ?_⟩
  · intro hk g t r h hr d1 d2 d1' d2' e e' c c'
    refine ⟨?_, ?_⟩ <;> simp [chainReply, h, hr]
  · intro hk g t h d1 d2 e c
    unfold chainReply
    rcases h with h | h <;> rw [h]
    simp
  · intro s d2 e c
    exact ⟨rfl, rfl⟩
  · intro msg d2 e c r h
    unfold hf_fallback_reply
    rw [h]
  · intro d2 msg e c
    refine ⟨rfl, rfl, ?_⟩
    intro h
    unfold hf_fallback_reply
    rw [h]
  · intro e c
    unfold fallbackChoice
    exact getD_mod_mem _ c (fallbackFor_ne_nil e)
  · intro e h
    unfold fallbackFor
    rw [h]
    rfl
  · intro o s m l h
    unfold handleMessage routeText
    split
    · rfl
    · split
      · rfl
      · split
        · split
          · rfl
          · rfl
        · rw [h, get_emotion_ok_eval]
          repeat' split
          all_goals first | rfl | simp_all

/-- Witness for C2 (amended): a successful first provider, the advance on
first-provider failure, the as-is empty Hugging Face reply, the
same-provider retry, the fallback-table failure shapes, the table for a
known and an unknown emotion label, and an end-to-end run with a healthy
classifier. -/
theorem C2_amended_witness :
    (chainReply true (some "hello") HFData.exn HFData.exn "hi" "joy" 0 =
        "hello" ∧
      chainReply true (some "hello") HFData.exn HFData.exn "hi" "joy" 0 =
        chainReply true (some "hello") HFData.malformed (HFData.dictGen "x")
          "hi" "fear" 5) ∧
    chainReply true none HFData.exn HFData.exn "hi" "joy" 0 =
      hf_fallback_reply HFData.exn HFData.exn "joy" 0 ∧
    (hf_fallback_reply (HFData.dictGen "") HFData.exn "joy" 0 = strip "" ∧
      hf_fallback_reply (HFData.listGen "") HFData.exn "joy" 0 = strip "") ∧
    hf_fallback_reply (HFData.dictErr "loading") (HFData.dictGen "warm reply")
        "joy" 0 = "warm reply" ∧
    hf_fallback_reply HFData.exn HFData.malformed "joy" 0 =
      fallbackChoice "joy" 0 ∧
    hf_fallback_reply (HFData.dictErr "warming") HFData.malformed "joy" 0 =
      fallbackChoice "joy" 0 ∧
    fallbackChoice "joy" 0 ∈ fallbackFor "joy" ∧
    fallbackFor "mystery" = NEUTRAL_FALLBACKS ∧
    (handleMessage oDemo initialState "hi").isOk = true :=
  ⟨C2_amended_provider_chain.1 true (some "hello") "hi" "hello" (by decide)
     (by decide) HFData.exn HFData.exn HFData.malformed (HFData.dictGen "x")
     "joy" "fear" 0 5,
   C2_amended_provider_chain.2.1 true none "hi" (Or.inl (by decide))
     HFData.exn HFData.exn "joy" 0,
   C2_amended_provider_chain.2.2.1 "" HFData.exn "joy" 0,
   C2_amended_provider_chain.2.2.2.1 "loading" (HFData.dictGen "warm reply")
     "joy" 0 "warm reply" (by decide),
   (C2_amended_provider_chain.2.2.2.2.1 HFData.malformed "warming" "joy" 0).1,
   (C2_amended_provider_chain.2.2.2.2.1 HFData.malformed "warming" "joy" 0).2.2
     (by decide),
   C2_amended_provider_chain.2.2.2.2.2.1 "joy" 0,
   C2_amended_provider_chain.2.2.2.2.2.2.1 "mystery" (by decide),
   C2_amended_provider_chain.2.2.2.2.2.2.2 oDemo initialState "hi" "neutral"
     rfl⟩

/-- C1 (code-bug evaluation): the crisis check lives only inside the GPT
provider, so a crisis message sent mid-assessment is absorbed as a stress
answer and replied to with the next stress question — not with the fixed
safety message — even though the text matches the crisis list; and with no
OpenAI key configured the crisis check never runs at all, so even an
idle-stage crisis message gets an ordinary fallback reply. -/
theorem C1_crisis_bug_eval :
    matchesAny (lowerStr "I want to kill myself") crisis_terms = true ∧
    handleMessage oDemo
        { stage := Stage.stress, answers := [], offered_stress := false,
          context := [] } "I want to kill myself" =
      Except.ok ({ stage := Stage.stress, answers := ["I want to kill myself"],
                   offered_stress := false,
                   context := ["MindMate: Do you have trouble relaxing or sleeping? (Often / Sometimes / Rarely)"] },
                 { reply := "Do you have trouble relaxing or sleeping? (Often / Sometimes / Rarely)",
                   rtype := "stress" }) ∧
    (handleMessage
        { hasKey := false, classifierModel := Except.ok "neutral",
          gptNet := none, hfData1 := HFData.exn, hfData2 := HFData.exn,
          choice := 0 } initialState "I want to kill myself").toOption.map
        (fun p => p.2.reply) =
      some "I’m here — what’s been on your mind today?" ∧
    "Do you have trouble relaxing or sleeping? (Often / Sometimes / Rarely)" ≠
      SAFETY_MESSAGE ∧
    "I’m here — what’s been on your mind today?" ≠ SAFETY_MESSAGE := by
  decide

/-- C8 counterexample: `get_emotion` has no exception handling, so a
classifier error propagates — it does not degrade to a neutral label — and
it blocks routing of an ordinary message. -/
theorem C8_counterexample :
    get_emotion (Except.error "classifier crashed") "zzz" =
      Except.error "classifier crashed" ∧
    handleMessage oDemo2 initialState "zzz" =
      Except.error "classifier crashed" := by
  decide

/-- C8 (amended): `get_emotion` returns a keyword-derived label without
consulting the model when a keyword matches; otherwise it returns the
model's label lowercased, and a model error propagates uncaught — blocking
routing of any non-empty, non-reset, non-assessment turn. -/
theorem C8_amended_get_emotion :
    (∀ (model : Except String String) (t v : String),
        findKeyword (lowerStr t) = some v → get_emotion model t = Except.ok v) ∧
    (∀ t l : String, findKeyword (lowerStr t) = none →
        get_emotion (Except.ok l) t = Except.ok (lowerStr l)) ∧
    (∀ t e : String, findKeyword (lowerStr t) = none →
        get_emotion (Except.error e) t = Except.error e) ∧
    (∀ (o : Oracles) (s : AppState) (m e : String),
        strip m ≠ "" →
        matchesAny (lowerStr (strip m)) reset_words = false →
        s.stage ≠ Stage.stress →
        get_emotion o.classifierModel (strip m) = Except.error e →
        handleMessage o s m = Except.error e) := by
  refine ⟨?_, ?_, ?_, ?_⟩
  · intro model t v h
    unfold get_emotion
    rw [h]
  · intro t l h
    unfold get_emotion
    rw [h]
  · intro t e h
    unfold get_emotion
    rw [h]
  · intro o s m e hne hres hstage hemo
    unfold handleMessage routeText
    rw [if_neg hne, if_neg (by simp [hres]), if_neg hstage, hemo]

/-- Witness for C8 (amended): a keyword text, a model-label text, a
propagated model error, and a blocked route. -/
theorem C8_amended_witness :
    get_emotion (Except.error "down") "I am Happy today" = Except.ok "joy" ∧
    get_emotion (Except.ok "Fear") "zzz" = Except.ok "fear" ∧
    get_emotion (Except.error "boom") "zzz" = Except.error "boom" ∧
    handleMessage oDemo2 initialState "zzz" =
      Except.error "classifier crashed" :=
  ⟨C8_amended_get_emotion.1 (Except.error "down") "I am Happy today" "joy"
     (by decide),
   C8_amended_get_emotion.2.1 "zzz" "Fear" (by decide),
   C8_amended_get_emotion.2.2.1 "zzz" "boom" (by decide),
   C8_amended_get_emotion.2.2.2 oDemo2 initialState "zzz" "classifier crashed"
     (by decide) (by decide) (by decide) (by decide)⟩

/-- C3 counterexample: with a pending offer, a next turn that matches no
clearing rule ("maybe") and a next turn on the relaxation path ("relax")
both leave `offered_stress` set — the offer is not cleared after one turn. -/
theorem C3_counterexample :
    ((handleMessage oDemo
        { stage := Stage.idle, answers := [], offered_stress := true,
          context := [] } "maybe").toOption.map
      fun p => p.1.offered_stress) = some true ∧
    ((handleMessage oDemo
        { stage := Stage.idle, answers := [], offered_stress := true,
          context := [] } "relax").toOption.map
      fun p => p.1.offered_stress) = some true := by
  decide

/-- C3 (amended): the offer flag is sticky, not single-turn.  On the next
handled turn it becomes false only on reset or on acceptance (affirmative
text that does not match the negative-mood rule); a negative-mood turn
re-asserts it to true; and any other non-empty turn from the idle stage
leaves it exactly as it was. -/
theorem C3_amended_offer_stickiness :
    (∀ (o : Oracles) (s : AppState) (m : String),
        matchesAny (lowerStr (strip m)) reset_words = true →
        ((handleMessage o s m).toOption.map fun p => p.1.offered_stress) =
          some false) ∧
    (∀ (o : Oracles) (s : AppState) (m emo : String),
        strip m ≠ "" →
        matchesAny (lowerStr (strip m)) reset_words = false →
        s.stage = Stage.idle →
        get_emotion o.classifierModel (strip m) = Except.ok emo →
        matchesAny (lowerStr (strip m)) negative_cues = false →
        s.offered_stress = true →
        matchesAny (lowerStr (strip m)) affirm_words = true →
        ((handleMessage o s m).toOption.map fun p => p.1.offered_stress) =
          some false) ∧
    (∀ (o : Oracles) (s : AppState) (m emo : String),
        strip m ≠ "" →
        matchesAny (lowerStr (strip m)) reset_words = false →
        s.stage = Stage.idle →
        get_emotion o.classifierModel (strip m) = Except.ok emo →
        matchesAny (lowerStr (strip m)) negative_cues = true →
        ((handleMessage o s m).toOption.map fun p => p.1.offered_stress) =
          some true) ∧
    (∀ (o : Oracles) (s : AppState) (m emo : String),
        strip m ≠ "" →
        matchesAny (lowerStr (strip m)) reset_words = false →
        s.stage = Stage.idle →
        get_emotion o.classifierModel (strip m) = Except.ok emo →
        matchesAny (lowerStr (strip m)) negative_cues = false →
        matchesAny (lowerStr (strip m)) affirm_words = false →
        ((handleMessage o s m).toOption.map fun p => p.1.offered_stress) =
          some s.offered_stress) := by
  refine ⟨?_, ?_, ?_, ?_⟩
  · intro o s m h
    rw [reset_route o s m h]
    rfl
  · intro o s m emo hne hres hstage hemo hneg hoff haff
    unfold handleMessage routeText
    rw [if_neg hne, if_neg (by simp [hres]), if_neg (by simp [hstage]), hemo]
    dsimp only
    rw [if_neg (by simp [hneg]), if_pos (by simp [hoff, haff])]
    rfl
  · intro o s m emo hne hres hstage hemo hneg
    unfold handleMessage routeText
    rw [if_neg hne, if_neg (by simp [hres]), if_neg (by simp [hstage]), hemo]
    dsimp only
    rw [if_pos (by simp [hneg])]
    rfl
  · intro o s m emo hne hres hstage hemo hneg haff
    unfold handleMessage routeText
    rw [if_neg hne, if_neg (by simp [hres]), if_neg (by simp [hstage]), hemo]
    dsimp only
    rw [if_neg (by simp [hneg]), if_neg (by simp [haff])]
    split
    · rfl
    · rfl

/-- Witness for C3 (amended): "maybe" leaves the pending offer set; "yes"
clears it by accepting. -/
theorem C3_amended_witness :
    ((handleMessage oDemo
        { stage := Stage.idle, answers := [], offered_stress := true,
          context := [] } "maybe").toOption.map
      fun p => p.1.offered_stress) = some true ∧
    ((handleMessage oDemo
        { stage := Stage.idle, answers := [], offered_stress := true,
          context := [] } "yes").toOption.map
      fun p => p.1.offered_stress) = some false :=
  ⟨C3_amended_offer_stickiness.2.2.2 oDemo
     { stage := Stage.idle, answers := [], offered_stress := true,
       context := [] } "maybe" "neutral" (by decide) (by decide) rfl
     (by decide) (by decide) (by decide),
   C3_amended_offer_stickiness.2.1 oDemo
     { stage := Stage.idle, answers := [], offered_stress := true,
       context := [] } "yes" "neutral" (by decide) (by decide) rfl (by decide)
     (by decide) rfl (by decide)⟩

/-- C4 counterexample: with a pending offer, "yes, still sad" matches both
the affirmative and the negative-mood vocabularies, yet the session stays in
the idle stage with the offer flag still set and a fresh offer is returned —
the negative-mood rule, not acceptance, wins. -/
theorem C4_counterexample :
    matchesAny (lowerStr "yes, still sad") affirm_words = true ∧
    matchesAny (lowerStr "yes, still sad") negative_cues = true ∧
    ((handleMessage oDemo
        { stage := Stage.idle, answers := [], offered_stress := true,
          context := [] } "yes, still sad").toOption.map
      fun p => (p.1.stage, p.1.offered_stress, p.2.rtype)) =
      some (Stage.idle, true, "offer_test") := by
  decide

/-- C4 (amended): the code evaluates the negative-mood rule before offer
acceptance.  When the text matches the negative-mood set, a fresh offer is
issued (even if an offer is pending and the text is also affirmative);
acceptance transitions to the assessment with empty answers and the first
question only when the text does not match the negative-mood set. -/
theorem C4_amended_rule_order :
    (∀ (o : Oracles) (s : AppState) (m emo : String),
        strip m ≠ "" →
        matchesAny (lowerStr (strip m)) reset_words = false →
        s.stage = Stage.idle →
        get_emotion o.classifierModel (strip m) = Except.ok emo →
        matchesAny (lowerStr (strip m)) negative_cues = true →
        handleMessage o s m =
          Except.ok ({ s with offered_stress := true,
                              context := add_context
                                (add_context s.context "User" (strip m))
                                "MindMate" OFFER_MESSAGE },
                     { reply := OFFER_MESSAGE, rtype := "offer_test" })) ∧
    (∀ (o : Oracles) (s : AppState) (m emo : String),
        strip m ≠ "" →
        matchesAny (lowerStr (strip m)) reset_words = false →
        s.stage = Stage.idle →
        get_emotion o.classifierModel (strip m) = Except.ok emo →
        matchesAny (lowerStr (strip m)) negative_cues = false →
        s.offered_stress = true →
        matchesAny (lowerStr (strip m)) affirm_words = true →
        handleMessage o s m =
          Except.ok ({ s with stage := Stage.stress,
                              answers := [],
                              offered_stress := false,
                              context := add_context
                                (add_context s.context "User" (strip m))
                                "MindMate" (STRESS_QUESTIONS.getD 0 "") },
                     { reply := STRESS_QUESTIONS.getD 0 "",
                       rtype := "stress" })) := by
  refine ⟨?_, ?_⟩
  · intro o s m emo hne hres hstage hemo hneg
    unfold handleMessage routeText
    rw [if_neg hne, if_neg (by simp [hres]), if_neg (by simp [hstage]), hemo]
    dsimp only
    rw [if_pos (by simp [hneg])]
  · intro o s m emo hne hres hstage hemo hneg hoff haff
    unfold handleMessage routeText
    rw [if_neg hne, if_neg (by simp [hres]), if_neg (by simp [hstage]), hemo]
    dsimp only
    rw [if_neg (by simp [hneg]), if_pos (by simp [hoff, haff])]

/-- Witness for C4 (amended): the double-match input re-offers; a purely
affirmative input starts the assessment. -/
theorem C4_amended_witness :
    handleMessage oDemo
        { stage := Stage.idle, answers := [], offered_stress := true,
          context := [] } "yes, still sad" =
      Except.ok ({ stage := Stage.idle, answers := [], offered_stress := true,
                   context := add_context
                     (add_context [] "User" "yes, still sad")
                     "MindMate" OFFER_MESSAGE },
                 { reply := OFFER_MESSAGE, rtype := "offer_test" }) ∧
    handleMessage oDemo
        { stage := Stage.idle, answers := [], offered_stress := true,
          context := [] } "yes please" =
      Except.ok ({ stage := Stage.stress, answers := [],
                   offered_stress := false,
                   context := add_context (add_context [] "User" "yes please")
                     "MindMate" (STRESS_QUESTIONS.getD 0 "") },
                 { reply := STRESS_QUESTIONS.getD 0 "", rtype := "stress" }) :=
  ⟨C4_amended_rule_order.1 oDemo
     { stage := Stage.idle, answers := [], offered_stress := true,
       context := [] } "yes, still sad" "sadness" (by decide) (by decide) rfl
     (by decide) (by decide),
   C4_amended_rule_order.2 oDemo
     { stage := Stage.idle, answers := [], offered_stress := true,
       context := [] } "yes please" "neutral" (by decide) (by decide) rfl
     (by decide) (by decide) rfl (by decide)⟩

/-- C9 counterexample: an in-progress assessment answer appends only the
bot's next question to the context — the inbound "often" never appears —
and a reset turn leaves the context empty rather than recording the inbound
turn. -/
theorem C9_counterexample :
    ((handleMessage oDemo
        { stage := Stage.stress, answers := [], offered_stress := false,
          context := [] } "often").toOption.map fun p => p.1.context) =
      some ["MindMate: Do you have trouble relaxing or sleeping? (Often / Sometimes / Rarely)"] ∧
    "User: often" ∉
      ["MindMate: Do you have trouble relaxing or sleeping? (Often / Sometimes / Rarely)"] ∧
    ((handleMessage oDemo
        { stage := Stage.idle, answers := ["a"], offered_stress := true,
          context := ["User: earlier"] } "reset").toOption.map
      fun p => p.1.context) = some [] := by
  decide

/-- C9 (amended): the inbound user turn is recorded in the context only on
the post-classification paths (offer, acceptance, relaxation, provider
chain).  A reset turn clears the context outright, and an in-progress
assessment answer is stored in `answers` while only the bot's next question
is appended to the context. -/
theorem C9_amended_context_appends :
    (∀ (o : Oracles) (s : AppState) (m : String),
        matchesAny (lowerStr (strip m)) reset_words = true →
        ((handleMessage o s m).toOption.map fun p => p.1.context) = some []) ∧
    (∀ (o : Oracles) (s : AppState) (m : String),
        strip m ≠ "" →
        matchesAny (lowerStr (strip m)) reset_words = false →
        s.stage = Stage.stress →
        (s.answers ++ [strip m]).length < 3 →
        handleMessage o s m =
          Except.ok ({ s with answers := s.answers ++ [strip m],
                              context := add_context s.context "MindMate"
                                (nextQuestion (s.answers ++ [strip m])) },
                     { reply := nextQuestion (s.answers ++ [strip m]),
                       rtype := "stress" })) ∧
    (∀ (o : Oracles) (s : AppState) (m emo : String),
        strip m ≠ "" →
        matchesAny (lowerStr (strip m)) reset_words = false →
        s.stage = Stage.idle →
        get_emotion o.classifierModel (strip m) = Except.ok emo →
        matchesAny (lowerStr (strip m)) negative_cues = false →
        (s.offered_stress && matchesAny (lowerStr (strip m)) affirm_words) =
          false →
        matchesAny (lowerStr (strip m)) relax_words = false →
        handleMessage o s m =
          Except.ok ({ s with context := add_context
                                (add_context s.context "User" (strip m))
                                "MindMate"
                                (chainReply o.hasKey o.gptNet o.hfData1
                                  o.hfData2 (strip m) emo o.choice) },
                     { reply := chainReply o.hasKey o.gptNet o.hfData1
                         o.hfData2 (strip m) emo o.choice,
                       rtype := "chat" })) := by
  refine ⟨?_, ?_, ?_⟩
  · intro o s m h
    rw [reset_route o s m h]
    rfl
  · intro o s m hne hres hstage hlen
    unfold handleMessage routeText
    rw [if_neg hne, if_neg (by simp [hres]), if_pos hstage,
      if_neg (by omega)]
  · intro o s m emo hne hres hstage hemo hneg haccept hrel
    unfold handleMessage routeText
    rw [if_neg hne, if_neg (by simp [hres]), if_neg (by simp [hstage]), hemo]
    dsimp only
    rw [if_neg (by simp [hneg]), if_neg (by simp [haccept]),
      if_neg (by simp [hrel])]

/-- Witness for C9 (amended): a reset turn, an absorbed stress answer, and a
plain chat turn. -/
theorem C9_amended_witness :
    ((handleMessage oDemo sDemo "reset").toOption.map fun p => p.1.context) =
      some [] ∧
    handleMessage oDemo sDemo "often" =
      Except.ok ({ sDemo with answers := ["a", "often"],
                              context := add_context sDemo.context "MindMate"
                                (nextQuestion ["a", "often"]) },
                 { reply := nextQuestion ["a", "often"], rtype := "stress" }) ∧
    handleMessage oDemo initialState "zzz" =
      Except.ok ({ initialState with
                     context := add_context
                       (add_context initialState.context "User" "zzz")
                       "MindMate"
                       (chainReply oDemo.hasKey oDemo.gptNet oDemo.hfData1
                         oDemo.hfData2 "zzz" "neutral" oDemo.choice) },
                 { reply := chainReply oDemo.hasKey oDemo.gptNet oDemo.hfData1
                     oDemo.hfData2 "zzz" "neutral" oDemo.choice,
                   rtype := "chat" }) :=
  ⟨C9_amended_context_appends.1 oDemo sDemo "reset" (by decide),
   C9_amended_context_appends.2.1 oDemo sDemo "often" (by decide) (by decide)
     rfl (by decide),
   C9_amended_context_appends.2.2 oDemo initialState "zzz" "neutral"
     (by decide) (by decide) rfl (by decide) (by decide) (by decide)
     (by decide)⟩

end MindMate
